import Mathlib

/-!
Verification of `src/exec_dir_mcp/main.py` (an MCP command-execution
server) against its natural-language specification.

The embedding mirrors the Python module shallowly:

* `PyVal` models the JSON/Python values flowing through the server
  (`None`, booleans, integers, strings, lists, string-keyed dicts).
* `Sys` is the external-world oracle: path canonicalisation
  (`Path(...).resolve()`), `exists()`, `is_dir()`, the behaviour of the
  spawned subprocess, and `str(e)` rendering of Python exceptions.
* `Effect` records the externally visible steps a call performed
  (authorization check, `create_subprocess_shell` call, `kill()`), so
  theorems can state that a step was or was not reached.
* `POut` is the outcome of a Python call: a returned value, an escaped
  exception, or no return at all (an unbounded `wait_for`).

Definitions keep the Python names (`is_directory_allowed`,
`execute_command`, `handle_request`, `send_response`); `runLine` is the
body of `MCPServer.run`'s loop for one parsed input line.
-/

/-- JSON/Python values handled by the server.  Floats never occur in the
code paths under verification and are not modelled. -/
inductive PyVal where
  | none : PyVal
  | bool (b : Bool) : PyVal
  | int (n : Int) : PyVal
  | str (s : String) : PyVal
  | list (xs : List PyVal) : PyVal
  | dict (fs : List (String × PyVal)) : PyVal

/-- The Python exceptions that the module can raise, with enough data to
render `str(e)` through the oracle. -/
inductive PyExc where
  | noAttrGet (v : PyVal) (key : String) : PyExc
  | pathTypeErr (v : PyVal) : PyExc
  | spawnTypeErr (v : PyVal) : PyExc
  | waitTypeErr (v : PyVal) : PyExc

/-- Externally visible steps of `execute_command`:  `authCheck` marks the
call to `is_directory_allowed`, `spawnCall` marks reaching the
`create_subprocess_shell` call, `kill` marks `process.kill()`, and
`terminate` would mark a graceful `process.terminate()` — the source
contains no such call, so no definition ever emits it. -/
inductive Effect where
  | authCheck : Effect
  | spawnCall : Effect
  | kill : Effect
  | terminate : Effect
deriving DecidableEq

/-- Oracle description of the spawned child process: the spawn call
raises, or the process produces the given (permissively decoded) output
streams and exit code after `dur` seconds — `dur = none` meaning it
never completes. -/
inductive ProcBehavior where
  | raiseExc (msg : String) : ProcBehavior
  | runs (dur : Option Nat) (stdout stderr : String) (rc : Int) : ProcBehavior

/-- Outcome of `asyncio.wait_for(process.communicate(), timeout)`. -/
inductive WaitRes where
  | done : WaitRes
  | timedOut : WaitRes
  | never : WaitRes
deriving DecidableEq

/-- Outcome of a Python call: a returned value, no return (an unbounded
wait on a never-completing process), or an escaped exception. -/
inductive POut (α : Type) where
  | ret (a : α) : POut α
  | hang : POut α
  | exc (e : PyExc) : POut α

/-- Python truthiness on the modelled values (`working_dir or default`). -/
def pyTruthy : PyVal → Bool
  | .none => false
  | .bool b => b
  | .int n => n != 0
  | .str s => s != ""
  | .list xs => !xs.isEmpty
  | .dict fs => !fs.isEmpty

/-- First-match lookup in a dict's field list (Python dict keys are
unique, so first match is the match). -/
def lookupStr : List (String × PyVal) → String → Option PyVal
  | [], _ => Option.none
  | (k, v) :: rest, key => if k == key then Option.some v else lookupStr rest key

/-- `v.get(key, default)`: raises `AttributeError` when `v` is not a
dict, otherwise total lookup with a default. -/
def pyGet (v : PyVal) (key : String) (default : PyVal) : Except PyExc PyVal :=
  match v with
  | .dict fs => .ok ((lookupStr fs key).getD default)
  | _ => .error (.noAttrGet v key)

/-- `key in response` on a dict value (`send_response` only applies it to
dicts produced by `handle_request`). -/
def hasKey (v : PyVal) (key : String) : Bool :=
  match v with
  | .dict fs => (lookupStr fs key).isSome
  | _ => false

/-- `response[key]` under a `hasKey` guard. -/
def getKey (v : PyVal) (key : String) : PyVal :=
  match v with
  | .dict fs => (lookupStr fs key).getD .none
  | _ => .none

/-- Python `v == "literal"` for a string literal: only a string with the
same contents compares equal. -/
def isStrV (v : PyVal) (s : String) : Bool :=
  match v with
  | .str t => t == s
  | _ => false

/-- Segment-based path containment: `al` is an initial run of segments
of `p`, i.e. the path `p` equals the path `al` or lies below it.  This
is exactly when `PurePath(p).relative_to(al)` succeeds for canonical
absolute paths. -/
def subSegs : List String → List String → Bool
  | [], _ => true
  | _ :: _, [] => false
  | a :: as, b :: bs => a == b && subSegs as bs

/-- Render a canonical segment list as the POSIX string `str(path)`
produces for an absolute path. -/
def pathStr (p : List String) : String :=
  "/" ++ String.intercalate "/" p

/-- Minimal JSON string escaping (quote and backslash); escaping of
control characters is elided — no claim inspects the serialised text. -/
def escapeJson (s : String) : String :=
  s.foldl (fun acc c =>
    if c = '\\' then acc ++ "\\\\"
    else if c = '"' then acc ++ "\\\""
    else acc.push c) ""

mutual

/-- `json.dumps` on the modelled values.  The `indent=2` pretty-printing
of the source is elided (no claim inspects the serialised text); the
structure and `ensure_ascii=False` pass-through of non-ASCII text are
kept. -/
def json_dumps : PyVal → String
  | .none => "null"
  | .bool true => "true"
  | .bool false => "false"
  | .int n => toString n
  | .str s => "\"" ++ escapeJson s ++ "\""
  | .list xs => "[" ++ dumpsItems xs ++ "]"
  | .dict fs => "\x7b" ++ dumpsFields fs ++ "\x7d"

def dumpsItems : List PyVal → String
  | [] => ""
  | [x] => json_dumps x
  | x :: y :: xs => json_dumps x ++ ", " ++ dumpsItems (y :: xs)

def dumpsFields : List (String × PyVal) → String
  | [] => ""
  | [(k, v)] => "\"" ++ escapeJson k ++ "\": " ++ json_dumps v
  | (k, v) :: g :: fs =>
      "\"" ++ escapeJson k ++ "\": " ++ json_dumps v ++ ", " ++ dumpsFields (g :: fs)

end

mutual

/-- Python `repr` on the modelled values (used by `str` on containers). -/
def pyRepr : PyVal → String
  | .none => "None"
  | .bool true => "True"
  | .bool false => "False"
  | .int n => toString n
  | .str s => "\x27" ++ s ++ "\x27"
  | .list xs => "[" ++ reprItems xs ++ "]"
  | .dict fs => "\x7b" ++ reprFields fs ++ "\x7d"

def reprItems : List PyVal → String
  | [] => ""
  | [x] => pyRepr x
  | x :: y :: xs => pyRepr x ++ ", " ++ reprItems (y :: xs)

def reprFields : List (String × PyVal) → String
  | [] => ""
  | [(k, v)] => "\x27" ++ k ++ "\x27: " ++ pyRepr v
  | (k, v) :: g :: fs => "\x27" ++ k ++ "\x27: " ++ pyRepr v ++ ", " ++ reprFields (g :: fs)

end

/-- Python `str()` as used in the module's f-strings. -/
def pyStr : PyVal → String
  | .str s => s
  | v => pyRepr v

/-- Server configuration built in `MCPServer.__init__` (the startup
banner written to stderr is diagnostics, not modelled). -/
structure Server where
  default_dir : String
  allowed_dirs : List String

/-- `self.allow_all = len(self.allowed_dirs) == 0`. -/
def Server.allow_all (s : Server) : Bool :=
  s.allowed_dirs.length == 0

/-- The external-world oracle: `resolve` is `Path(s).resolve()` as a
canonical segment list (absolute, symlinks and dot segments resolved;
it never raises for missing paths), `pathExists`/`isDir` are
`exists()`/`is_dir()`, `spawn` gives the behaviour of
`create_subprocess_shell` for a string command in a directory, and
`excStr` renders `str(e)` for the modelled exceptions. -/
structure Sys where
  resolve : String → List String
  pathExists : List String → Bool
  isDir : List String → Bool
  spawn : String → List String → ProcBehavior
  excStr : PyExc → String

/-- `MCPServer.is_directory_allowed`: allow-all short circuit, then the
loop trying `dir_path.relative_to(Path(allowed).resolve())` entry by
entry, succeeding on the first containing entry. -/
def is_directory_allowed (sys : Sys) (srv : Server) (directory : String) :
    Bool × String :=
  if srv.allow_all then (true, "")
  else
    let dir_path := sys.resolve directory
    match srv.allowed_dirs.find? (fun allowed => subSegs (sys.resolve allowed) dir_path) with
    | Option.some _ => (true, "")
    | Option.none => (false, "目录不在允许列表中: " ++ directory)

/-- `asyncio.wait_for(process.communicate(), timeout=t)` for a process
that completes after `dur` seconds (`none` = never): an integer (or
bool, ints in Python) deadline completes iff the duration is within it,
`None` waits without a deadline, and any other type raises. -/
def waitOutcome (dur : Option Nat) (t : PyVal) : Except PyExc WaitRes :=
  match t with
  | .int n =>
      match dur with
      | Option.some d => if (d : Int) ≤ n then .ok .done else .ok .timedOut
      | Option.none => .ok .timedOut
  | .bool b =>
      match dur with
      | Option.some d => if (d : Int) ≤ (if b then 1 else 0) then .ok .done else .ok .timedOut
      | Option.none => .ok .timedOut
  | .none =>
      match dur with
      | Option.some _ => .ok .done
      | Option.none => .ok .never
  | v => .error (.waitTypeErr v)

/-- The `{"success": False, "error": msg}` result dict. -/
def errResult (msg : String) : PyVal :=
  .dict [("success", .bool false), ("error", .str msg)]

/-- `MCPServer.execute_command`.  The whole body sits in a
`try/except Exception` that converts any raised exception into an
error result, so the outcome is never `POut.exc`.  Stream decoding with
`errors='replace'` is folded into the oracle's already-decoded strings. -/
def execute_command (sys : Sys) (srv : Server)
    (command working_dir timeout : PyVal) : POut PyVal × List Effect :=
  let target_dir := if pyTruthy working_dir then working_dir else .str srv.default_dir
  match target_dir with
  | .str d =>
    let work_path := sys.resolve d
    if !sys.pathExists work_path then
      (.ret (errResult ("目录不存在: " ++ d)), [])
    else if !sys.isDir work_path then
      (.ret (errResult ("路径不是目录: " ++ d)), [])
    else
      match is_directory_allowed sys srv (pathStr work_path) with
      | (allowed, error_msg) =>
        if !allowed then
          (.ret (errResult error_msg), [.authCheck])
        else
          match command with
          | .str c =>
            match sys.spawn c work_path with
            | .raiseExc m =>
                (.ret (errResult ("执行错误: " ++ m)), [.authCheck, .spawnCall])
            | .runs dur out errS rc =>
                match waitOutcome dur timeout with
                | .error e =>
                    (.ret (errResult ("执行错误: " ++ sys.excStr e)),
                      [.authCheck, .spawnCall])
                | .ok .timedOut =>
                    (.ret (errResult ("命令执行超时（" ++ pyStr timeout ++ "秒）")),
                      [.authCheck, .spawnCall, .kill])
                | .ok .done =>
                    (.ret (.dict [("success", .bool true),
                        ("stdout", .str out), ("stderr", .str errS),
                        ("returncode", .int rc),
                        ("working_dir", .str (pathStr work_path)),
                        ("command", command)]),
                      [.authCheck, .spawnCall])
                | .ok .never => (.hang, [.authCheck, .spawnCall])
          | _ =>
              -- create_subprocess_shell raises on a non-string command;
              -- the outer except turns it into an error result
              (.ret (errResult ("执行错误: " ++ sys.excStr (.spawnTypeErr command))),
                [.authCheck, .spawnCall])
  | _ =>
      -- Path(target_dir) raises on a non-string argument
      (.ret (errResult ("执行错误: " ++ sys.excStr (.pathTypeErr target_dir))), [])

/-- The static result dict of the `initialize` method. -/
def initResult : PyVal :=
  .dict [("protocolVersion", .str "2024-11-05"),
         ("serverInfo", .dict [("name", .str "command-executor"),
                               ("version", .str "1.0.0")]),
         ("capabilities", .dict [("tools", .dict [])])]

/-- The static result dict of `tools/list` (descriptions interpolate the
configured default directory, as in the source). -/
def toolsListResult (srv : Server) : PyVal :=
  .dict [("tools", .list [
    .dict [("name", .str "execute_command"),
           ("description", .str ("在指定文件夹中执行命令。默认目录: " ++ srv.default_dir)),
           ("inputSchema", .dict [
             ("type", .str "object"),
             ("properties", .dict [
               ("command", .dict [("type", .str "string"),
                  ("description", .str "要执行的命令（shell 命令）")]),
               ("working_dir", .dict [("type", .str "string"),
                  ("description", .str ("工作目录的路径（可选，默认: " ++ srv.default_dir ++ "）"))]),
               ("timeout", .dict [("type", .str "integer"),
                  ("description", .str "超时时间（秒），默认30秒"),
                  ("default", .int 30)])]),
             ("required", .list [.str "command"])])]])]

/-- The `{"content": [{"type": "text", "text": json.dumps(result)}]}`
wrapper put around an `execute_command` result. -/
def contentWrap (result : PyVal) : PyVal :=
  .dict [("content", .list [.dict [("type", .str "text"),
                                   ("text", .str (json_dumps result))]])]

/-- The unknown-tool payload: a normal result flagged `isError`. -/
def unknownToolResult (tool_name : PyVal) : PyVal :=
  .dict [("content", .list [.dict [("type", .str "text"),
           ("text", .str (json_dumps (.dict [("error",
              .str ("未知工具: " ++ pyStr tool_name))])))]]),
         ("isError", .bool true)]

/-- The `-32601` unknown-method protocol error dict. -/
def unknownMethodResult (method : PyVal) : PyVal :=
  .dict [("error", .dict [("code", .int (-32601)),
                          ("message", .str ("未知方法: " ++ pyStr method))])]

/-- Plumbing of the `execute_command` call inside `tools/call`: wrap a
returned result dict in the content envelope; an execution that never
returns makes the handler never return. -/
def execCall (sys : Sys) (srv : Server) (st : Bool)
    (cmd wd tv : PyVal) : POut (Option PyVal) × Bool × List Effect :=
  match execute_command sys srv cmd wd tv with
  | (.ret result, eff) => (.ret (Option.some (contentWrap result)), st, eff)
  | (.hang, eff) => (.hang, st, eff)
  | (.exc e, eff) => (.exc e, st, eff)

/-- `MCPServer.handle_request`: method lookup and dispatch.  The
returned triple is (outcome carrying the optional response dict, new
`initialized` flag, effects performed). -/
def handle_request (sys : Sys) (srv : Server) (st : Bool) (request : PyVal) :
    POut (Option PyVal) × Bool × List Effect :=
  match pyGet request "method" .none with
  | .error e => (.exc e, st, [])
  | .ok method =>
  match pyGet request "params" (.dict []) with
  | .error e => (.exc e, st, [])
  | .ok params =>
  if isStrV method "initialize" then
    (.ret (Option.some initResult), true, [])
  else if isStrV method "notifications/initialized" then
    (.ret Option.none, st, [])
  else if isStrV method "tools/list" then
    (.ret (Option.some (toolsListResult srv)), st, [])
  else if isStrV method "tools/call" then
    match pyGet params "name" .none with
    | .error e => (.exc e, st, [])
    | .ok tool_name =>
    match pyGet params "arguments" (.dict []) with
    | .error e => (.exc e, st, [])
    | .ok arguments =>
    if isStrV tool_name "execute_command" then
      match pyGet arguments "command" .none with
      | .error e => (.exc e, st, [])
      | .ok cmd =>
      match pyGet arguments "working_dir" .none with
      | .error e => (.exc e, st, [])
      | .ok wd =>
      match pyGet arguments "timeout" (.int 30) with
      | .error e => (.exc e, st, [])
      | .ok tv => execCall sys srv st cmd wd tv
    else
      (.ret (Option.some (unknownToolResult tool_name)), st, [])
  else
    (.ret (Option.some (unknownMethodResult method)), st, [])

/-- `MCPServer.send_response`: `None` responses produce no output line;
otherwise build the envelope (`jsonrpc`, the id when the request had a
non-`None` one, then `error` or `result`) for the one line written. -/
def send_response (response : Option PyVal) (request_id : PyVal) : Option PyVal :=
  match response with
  | Option.none => Option.none
  | Option.some r =>
    let base := [("jsonrpc", PyVal.str "2.0")]
    let withId :=
      match request_id with
      | PyVal.none => base
      | rid => base ++ [("id", rid)]
    if hasKey r "error" then
      Option.some (.dict (withId ++ [("error", getKey r "error")]))
    else
      Option.some (.dict (withId ++ [("result", r)]))

/-- The `-32603` internal-error line written by `MCPServer.run`'s
catch-all: note the source passes `None` as the id. -/
def internalErrLines (sys : Sys) (e : PyExc) : List PyVal :=
  (send_response (Option.some (.dict [("error", .dict [("code", .int (-32603)),
      ("message", .str ("Internal error: " ++ sys.excStr e))])])) PyVal.none).toList

/-- One iteration of `MCPServer.run`'s loop on a non-blank input line:
`line = none` is a JSON parse failure (`-32700`, no id); otherwise the
logging f-string touches `request.get("method", ...)` when the request
is truthy, the id is read, and the request is dispatched.  Returns the
new `initialized` flag, the response lines written to stdout, and the
effects performed. -/
def runLine (sys : Sys) (srv : Server) (st : Bool) (line : Option PyVal) :
    Bool × List PyVal × List Effect :=
  match line with
  | Option.none =>
      (st, (send_response (Option.some (.dict [("error",
          .dict [("code", .int (-32700)), ("message", .str "Parse error")])]))
          PyVal.none).toList, [])
  | Option.some request =>
    match (if pyTruthy request then (pyGet request "method" (.str "unknown")).map (fun _ => ()) else .ok ()) with
    | .error e => (st, internalErrLines sys e, [])
    | .ok _ =>
    match pyGet request "id" .none with
    | .error e => (st, internalErrLines sys e, [])
    | .ok request_id =>
    match handle_request sys srv st request with
    | (.ret response, st2, eff) => (st2, (send_response response request_id).toList, eff)
    | (.exc e, st2, eff) => (st2, internalErrLines sys e, eff)
    | (.hang, st2, eff) => (st2, [], eff)

/-- Helper for `splitPath`: cut a character list at every separator. -/
def splitSegsAux : List Char → List Char → List String
  | [], acc => [String.mk acc.reverse]
  | c :: cs, acc =>
      if c = '/' then String.mk acc.reverse :: splitSegsAux cs []
      else splitSegsAux cs (c :: acc)

/-- Canonicalisation of a symlink-free literal absolute path: split on
the separator, dropping empty and `.` segments.  The concrete inputs
used below contain no symlinks and no `..` segments, so this agrees
with `Path(...).resolve()` on them. -/
def splitPath (s : String) : List String :=
  (splitSegsAux s.data []).filter (fun seg => seg != "" && seg != ".")

/-- A concrete demo world: a small directory tree, every spawned
process prints `hi` and exits 0 instantly, and `str(e)` of every
modelled exception is the fixed text `type error`. -/
def sysA : Sys where
  resolve := splitPath
  pathExists := fun p =>
    p == ["work"] || p == ["work", "sub"] || p == ["etc"] ||
    p == ["tmp", "project"] || p == ["tmp", "project-other"]
  isDir := fun p =>
    p == ["work"] || p == ["work", "sub"] || p == ["etc"] ||
    p == ["tmp", "project"] || p == ["tmp", "project-other"]
  spawn := fun _ _ => .runs (Option.some 0) "hi\n" "" 0
  excStr := fun _ => "type error"

/-- Demo configuration: default directory `/work`, no allowed-directory
restriction. -/
def srvAll : Server := ⟨"/work", []⟩

/-- Demo configuration restricting execution to `/work`. -/
def srvW : Server := ⟨"/work", ["/work"]⟩

/-- Claim C1: `is_directory_allowed` returns true iff the
allowed-directory list is empty or the canonical form of the candidate
equals or is a segment-based descendant of the canonical form of some
entry; in particular the sibling `/tmp/project-other` of the allowed
root `/tmp/project` is rejected (while a genuine descendant is
accepted). -/
theorem is_directory_allowed_iff :
    (∀ (sys : Sys) (srv : Server) (d : String),
      ((is_directory_allowed sys srv d).1 = true ↔
        (srv.allowed_dirs = [] ∨
          ∃ a ∈ srv.allowed_dirs,
            subSegs (sys.resolve a) (sys.resolve d) = true))) ∧
    (is_directory_allowed sysA ⟨"/", ["/tmp/project"]⟩ "/tmp/project-other").1 = false ∧
    (is_directory_allowed sysA ⟨"/", ["/tmp/project"]⟩ "/tmp/project/sub").1 = true := by
  refine ⟨fun sys srv d => ?_, by decide, by decide⟩
  unfold is_directory_allowed
  by_cases hall : srv.allow_all = true
  · have h0 : srv.allowed_dirs = [] := by
      unfold Server.allow_all at hall
      simpa using hall
    simp [hall, h0]
  · have hne : srv.allowed_dirs ≠ [] := by
      intro h
      apply hall
      unfold Server.allow_all
      simp [h]
    simp only [hall, Bool.false_eq_true, if_false]
    cases hfind : List.find? (fun allowed => subSegs (sys.resolve allowed) (sys.resolve d)) srv.allowed_dirs with
    | none =>
      constructor
      · intro h
        simp at h
      · intro h
        rcases h with h | ⟨a, ha, hpa⟩
        · exact absurd h hne
        · have hnone := List.find?_eq_none.mp hfind a ha
          simp [hpa] at hnone
    | some a =>
      constructor
      · intro _
        exact Or.inr ⟨a, List.mem_of_find?_eq_some hfind, by simpa using List.find?_some hfind⟩
      · intro _
        rfl

/-- Claim C2: `execute_command` resolves the working directory in the
order default-substitution, existence check, directory check,
authorization — short-circuiting at the first failing step with a
`success=false` result — and the spawn call is reached exactly when all
checks pass.  The empty effect lists in the first two conjuncts say the
authorization check and the spawn are never reached for a missing or
non-directory path. -/
theorem execute_command_step_order (sys : Sys) (srv : Server)
    (cmd wd tv : PyVal) (d : String)
    (htgt : (if pyTruthy wd then wd else PyVal.str srv.default_dir) = PyVal.str d) :
    (sys.pathExists (sys.resolve d) = false →
      execute_command sys srv cmd wd tv =
        (.ret (errResult ("目录不存在: " ++ d)), [])) ∧
    (sys.pathExists (sys.resolve d) = true → sys.isDir (sys.resolve d) = false →
      execute_command sys srv cmd wd tv =
        (.ret (errResult ("路径不是目录: " ++ d)), [])) ∧
    (sys.pathExists (sys.resolve d) = true → sys.isDir (sys.resolve d) = true →
      (is_directory_allowed sys srv (pathStr (sys.resolve d))).1 = false →
      execute_command sys srv cmd wd tv =
        (.ret (errResult (is_directory_allowed sys srv (pathStr (sys.resolve d))).2),
          [.authCheck])) ∧
    (Effect.spawnCall ∈ (execute_command sys srv cmd wd tv).2 ↔
      (sys.pathExists (sys.resolve d) = true ∧ sys.isDir (sys.resolve d) = true ∧
        (is_directory_allowed sys srv (pathStr (sys.resolve d))).1 = true)) := by
  refine ⟨?_, ?_, ?_, ?_⟩
  · intro h
    simp [execute_command, htgt, h]
  · intro hex hdir
    simp [execute_command, htgt, hex, hdir]
  · intro hex hdir hauth
    cases hA : is_directory_allowed sys srv (pathStr (sys.resolve d)) with
    | mk allowed msg =>
      rw [hA] at hauth
      simp only [] at hauth
      subst hauth
      simp [execute_command, htgt, hex, hdir, hA]
  · cases hex : sys.pathExists (sys.resolve d) with
    | false => simp [execute_command, htgt, hex]
    | true =>
      cases hdir : sys.isDir (sys.resolve d) with
      | false => simp [execute_command, htgt, hex, hdir]
      | true =>
        cases hA : is_directory_allowed sys srv (pathStr (sys.resolve d)) with
        | mk allowed msg =>
          cases allowed with
          | false => simp [execute_command, htgt, hex, hdir, hA]
          | true =>
            simp only [execute_command, htgt, hex, hdir, hA]
            cases cmd with
            | str c =>
              rcases hsp : sys.spawn c (sys.resolve d) with m | ⟨dur, out, errS, rc⟩
              · simp [hsp]
              · rcases hw : waitOutcome dur tv with e | w
                · simp [hsp, hw]
                · cases w <;> simp [hsp, hw]
            | none => simp
            | bool b => simp
            | int n => simp
            | list xs => simp
            | dict fs => simp

/-- Witness for C2 at a concrete input: the directory `/nope` does not
exist in the demo world, so the request fails with the not-found
message and performs no authorization check and no spawn. -/
theorem execute_command_step_order_witness :
    execute_command sysA srvAll (.str "ls") (.str "/nope") (.int 30) =
      (.ret (errResult ("目录不存在: " ++ "/nope")), []) :=
  (execute_command_step_order sysA srvAll (.str "ls") (.str "/nope") (.int 30)
    "/nope" rfl).1 (by decide)

/-- Demo world whose spawned process needs 5 seconds (the spec's
`sleep 5` scenario). -/
def sysSleep : Sys :=
  { sysA with spawn := fun _ _ => .runs (Option.some 5) "" "" 0 }

/-- Claim C3: when the subprocess wait exceeds the integer timeout, the
child is forcibly killed (a `kill` effect, and no graceful `terminate`
effect anywhere) and the result is `success=false` with an error
message naming the timeout duration in seconds. -/
theorem execute_command_timeout_kills (sys : Sys) (srv : Server)
    (c : String) (wd : PyVal) (n : Int) (d : String)
    (dur : Option Nat) (out errS : String) (rc : Int)
    (htgt : (if pyTruthy wd then wd else PyVal.str srv.default_dir) = PyVal.str d)
    (hex : sys.pathExists (sys.resolve d) = true)
    (hdir : sys.isDir (sys.resolve d) = true)
    (hA : (is_directory_allowed sys srv (pathStr (sys.resolve d))).1 = true)
    (hsp : sys.spawn c (sys.resolve d) = .runs dur out errS rc)
    (hdur : ∀ x, dur = Option.some x → n < x) :
    execute_command sys srv (.str c) wd (.int n) =
      (.ret (errResult ("命令执行超时（" ++ toString n ++ "秒）")),
        [.authCheck, .spawnCall, .kill]) ∧
    Effect.kill ∈ (execute_command sys srv (.str c) wd (.int n)).2 ∧
    Effect.terminate ∉ (execute_command sys srv (.str c) wd (.int n)).2 := by
  have hw : waitOutcome dur (.int n) = .ok .timedOut := by
    cases dur with
    | none => rfl
    | some x =>
      have hx := hdur x rfl
      simp only [waitOutcome]
      rw [if_neg (by omega)]
  have hmain : execute_command sys srv (.str c) wd (.int n) =
      (.ret (errResult ("命令执行超时（" ++ toString n ++ "秒）")),
        [.authCheck, .spawnCall, .kill]) := by
    cases hAeq : is_directory_allowed sys srv (pathStr (sys.resolve d)) with
    | mk allowed msg =>
      rw [hAeq] at hA
      simp only [] at hA
      subst hA
      simp [execute_command, htgt, hex, hdir, hAeq, hsp, hw, pyStr, pyRepr]
  refine ⟨hmain, ?_, ?_⟩
  · rw [hmain]
    simp
  · rw [hmain]
    simp

/-- Witness for C3: the spec's scenario 4 — a command that runs for 5
seconds against a 1-second timeout is killed and reported with the
1-second timeout message. -/
theorem execute_command_timeout_kills_witness :
    execute_command sysSleep srvAll (.str "sleep 5") PyVal.none (.int 1) =
      (.ret (errResult ("命令执行超时（" ++ toString (1 : Int) ++ "秒）")),
        [.authCheck, .spawnCall, .kill]) ∧
    Effect.kill ∈ (execute_command sysSleep srvAll (.str "sleep 5") PyVal.none (.int 1)).2 ∧
    Effect.terminate ∉ (execute_command sysSleep srvAll (.str "sleep 5") PyVal.none (.int 1)).2 :=
  execute_command_timeout_kills sysSleep srvAll "sleep 5" PyVal.none 1 "/work"
    (Option.some 5) "" "" 0 rfl (by decide) (by decide) (by decide) rfl
    (fun x h => by cases h; decide)

/-- A result dict reporting success: `success=true` followed by the
captured output fields. -/
def isSuccessShape (r : PyVal) : Prop :=
  ∃ rest, r = PyVal.dict (("success", PyVal.bool true) :: rest)

/-- A result dict reporting failure with a nonempty human-readable
message. -/
def isFailureShape (r : PyVal) : Prop :=
  ∃ m, r = errResult m ∧ m ≠ ""

/-- Strings with a nonempty left part stay nonempty under append. -/
theorem append_ne_empty (s t : String) (hs : s ≠ "") : s ++ t ≠ "" := by
  intro h
  apply hs
  have hd := congrArg String.data h
  rw [String.data_append] at hd
  cases s with
  | mk data =>
    cases data with
    | nil => rfl
    | cons c cs => simp at hd

/-- A nonempty prefix makes the whole failure message nonempty. -/
theorem isFailureShape_append (pre suf : String) (hp : pre ≠ "") :
    isFailureShape (errResult (pre ++ suf)) :=
  ⟨pre ++ suf, rfl, append_ne_empty pre suf hp⟩

/-- When `is_directory_allowed` rejects, its message is the localized
rejection text naming the path. -/
theorem is_directory_allowed_false_msg (sys : Sys) (srv : Server)
    (dir msg : String) (h : is_directory_allowed sys srv dir = (false, msg)) :
    msg = "目录不在允许列表中: " ++ dir := by
  unfold is_directory_allowed at h
  by_cases hall : srv.allow_all = true
  · simp [hall] at h
  · simp only [hall, Bool.false_eq_true, if_false] at h
    rcases hf : srv.allowed_dirs.find?
        (fun allowed => subSegs (sys.resolve allowed) (sys.resolve dir)) with _ | a
    · rw [hf] at h
      simp only [Prod.mk.injEq] at h
      exact h.2.symm
    · rw [hf] at h
      simp at h

/-- Claim C4: `execute_command` is a pure result-producing boundary: it
never lets an exception escape — every outcome is either no return (an
unbounded wait on a never-completing process) or a returned result dict
that is `success=true` with the captured output or `success=false` with
a nonempty error message. -/
theorem execute_command_never_raises (sys : Sys) (srv : Server)
    (cmd wd tv : PyVal) :
    (execute_command sys srv cmd wd tv).1 = POut.hang ∨
    ∃ r, (execute_command sys srv cmd wd tv).1 = POut.ret r ∧
      (isSuccessShape r ∨ isFailureShape r) := by
  rcases htd : (if pyTruthy wd then wd else PyVal.str srv.default_dir)
    with _ | b | n | d | xs | fs
  case str =>
    by_cases hex : sys.pathExists (sys.resolve d) = true
    case neg =>
      rw [Bool.not_eq_true] at hex
      right
      refine ⟨errResult ("目录不存在: " ++ d), ?_,
        Or.inr (isFailureShape_append _ _ (by decide))⟩
      simp [execute_command, htd, hex]
    case pos =>
    by_cases hdir : sys.isDir (sys.resolve d) = true
    case neg =>
      rw [Bool.not_eq_true] at hdir
      right
      refine ⟨errResult ("路径不是目录: " ++ d), ?_,
        Or.inr (isFailureShape_append _ _ (by decide))⟩
      simp [execute_command, htd, hex, hdir]
    case pos =>
    rcases hA : is_directory_allowed sys srv (pathStr (sys.resolve d))
      with ⟨allowed, msg⟩
    cases allowed with
    | false =>
      have hmsg := is_directory_allowed_false_msg sys srv _ _ hA
      subst hmsg
      right
      refine ⟨errResult ("目录不在允许列表中: " ++ pathStr (sys.resolve d)), ?_,
        Or.inr (isFailureShape_append _ _ (by decide))⟩
      simp [execute_command, htd, hex, hdir, hA]
    | true =>
      cases cmd with
      | str c =>
        rcases hsp : sys.spawn c (sys.resolve d) with m | ⟨dur, out, errS, rc⟩
        · right
          refine ⟨errResult ("执行错误: " ++ m), ?_,
            Or.inr (isFailureShape_append _ _ (by decide))⟩
          simp [execute_command, htd, hex, hdir, hA, hsp]
        · rcases hwo : waitOutcome dur tv with e | w
          · right
            refine ⟨errResult ("执行错误: " ++ sys.excStr e), ?_,
              Or.inr (isFailureShape_append _ _ (by decide))⟩
            simp [execute_command, htd, hex, hdir, hA, hsp, hwo]
          · cases w with
            | done =>
              right
              refine ⟨PyVal.dict [("success", .bool true),
                  ("stdout", .str out), ("stderr", .str errS),
                  ("returncode", .int rc),
                  ("working_dir", .str (pathStr (sys.resolve d))),
                  ("command", .str c)], ?_,
                Or.inl ⟨[("stdout", .str out), ("stderr", .str errS),
                  ("returncode", .int rc),
                  ("working_dir", .str (pathStr (sys.resolve d))),
                  ("command", .str c)], rfl⟩⟩
              simp [execute_command, htd, hex, hdir, hA, hsp, hwo]
            | timedOut =>
              right
              refine ⟨errResult ("命令执行超时（" ++ pyStr tv ++ "秒）"), ?_,
                Or.inr (isFailureShape_append _ _
                  (append_ne_empty _ _ (by decide)))⟩
              simp [execute_command, htd, hex, hdir, hA, hsp, hwo]
            | never =>
              left
              simp [execute_command, htd, hex, hdir, hA, hsp, hwo]
      | none =>
        right
        refine ⟨errResult ("执行错误: " ++ sys.excStr (.spawnTypeErr PyVal.none)), ?_,
          Or.inr (isFailureShape_append _ _ (by decide))⟩
        simp [execute_command, htd, hex, hdir, hA]
      | bool b =>
        right
        refine ⟨errResult ("执行错误: " ++ sys.excStr (.spawnTypeErr (.bool b))), ?_,
          Or.inr (isFailureShape_append _ _ (by decide))⟩
        simp [execute_command, htd, hex, hdir, hA]
      | int n =>
        right
        refine ⟨errResult ("执行错误: " ++ sys.excStr (.spawnTypeErr (.int n))), ?_,
          Or.inr (isFailureShape_append _ _ (by decide))⟩
        simp [execute_command, htd, hex, hdir, hA]
      | list ys =>
        right
        refine ⟨errResult ("执行错误: " ++ sys.excStr (.spawnTypeErr (.list ys))), ?_,
          Or.inr (isFailureShape_append _ _ (by decide))⟩
        simp [execute_command, htd, hex, hdir, hA]
      | dict gs =>
        right
        refine ⟨errResult ("执行错误: " ++ sys.excStr (.spawnTypeErr (.dict gs))), ?_,
          Or.inr (isFailureShape_append _ _ (by decide))⟩
        simp [execute_command, htd, hex, hdir, hA]
  case none =>
    right
    refine ⟨errResult ("执行错误: " ++ sys.excStr (.pathTypeErr PyVal.none)), ?_,
      Or.inr (isFailureShape_append _ _ (by decide))⟩
    simp [execute_command, htd]
  case bool =>
    right
    refine ⟨errResult ("执行错误: " ++ sys.excStr (.pathTypeErr (.bool b))), ?_,
      Or.inr (isFailureShape_append _ _ (by decide))⟩
    simp [execute_command, htd]
  case int =>
    right
    refine ⟨errResult ("执行错误: " ++ sys.excStr (.pathTypeErr (.int n))), ?_,
      Or.inr (isFailureShape_append _ _ (by decide))⟩
    simp [execute_command, htd]
  case list =>
    right
    refine ⟨errResult ("执行错误: " ++ sys.excStr (.pathTypeErr (.list xs))), ?_,
      Or.inr (isFailureShape_append _ _ (by decide))⟩
    simp [execute_command, htd]
  case dict =>
    right
    refine ⟨errResult ("执行错误: " ++ sys.excStr (.pathTypeErr (.dict fs))), ?_,
      Or.inr (isFailureShape_append _ _ (by decide))⟩
    simp [execute_command, htd]

/-- Claim C10: an empty-string `working_dir` is falsy, so
`working_dir or self.default_dir` substitutes the configured default:
the call behaves exactly as if the argument were absent (`None`), and
the existence check is applied to the default directory, never to the
empty string. -/
theorem execute_command_empty_workdir (sys : Sys) (srv : Server)
    (cmd tv : PyVal) :
    execute_command sys srv cmd (PyVal.str "") tv =
      execute_command sys srv cmd PyVal.none tv := by
  rfl

/-- A `None` command passes every directory check and reaches the
`create_subprocess_shell` call, which raises on the non-string and is
converted to an execution-level error result. -/
theorem execute_command_none_command (sys : Sys) (srv : Server)
    (wd tv : PyVal) (d : String)
    (htgt : (if pyTruthy wd then wd else PyVal.str srv.default_dir) = PyVal.str d)
    (hex : sys.pathExists (sys.resolve d) = true)
    (hdir : sys.isDir (sys.resolve d) = true)
    (hA : (is_directory_allowed sys srv (pathStr (sys.resolve d))).1 = true) :
    execute_command sys srv PyVal.none wd tv =
      (.ret (errResult ("执行错误: " ++ sys.excStr (.spawnTypeErr PyVal.none))),
        [.authCheck, .spawnCall]) := by
  cases hAeq : is_directory_allowed sys srv (pathStr (sys.resolve d)) with
  | mk allowed msg =>
    rw [hAeq] at hA
    simp only [] at hA
    subst hA
    simp [execute_command, htgt, hex, hdir, hAeq]

/-- C7 counterexample: a `tools/call execute_command` request with no
`command` argument is not rejected by any validation — the dispatcher
passes it through and the process-spawning step is reached (a
`spawnCall` effect is recorded), producing an execution-level error
rather than a validation rejection. -/
theorem no_command_reaches_spawn :
    Effect.spawnCall ∈ (handle_request sysA srvAll false (.dict [("id", .int 3),
      ("method", .str "tools/call"),
      ("params", .dict [("name", .str "execute_command"),
                        ("arguments", .dict [])])])).2.2 ∧
    (handle_request sysA srvAll false (.dict [("id", .int 3),
      ("method", .str "tools/call"),
      ("params", .dict [("name", .str "execute_command"),
                        ("arguments", .dict [])])])).1 =
      .ret (Option.some (contentWrap (errResult "执行错误: type error"))) :=
  ⟨by decide, rfl⟩

/-- C7 amended: the dispatcher performs no presence validation of
`params.arguments.command`; a request with the command argument missing
is passed through to `execute_command` with a `None` command, reaches
the spawn call (whose raised error is reported as an execution-level
`success=false` result), and is never rejected beforehand. -/
theorem no_command_validation (sys : Sys) (srv : Server) (st : Bool)
    (idv : PyVal) (afs : List (String × PyVal)) (d : String)
    (hcmd : lookupStr afs "command" = Option.none)
    (htgt : (if pyTruthy ((lookupStr afs "working_dir").getD PyVal.none)
        then ((lookupStr afs "working_dir").getD PyVal.none)
        else PyVal.str srv.default_dir) = PyVal.str d)
    (hex : sys.pathExists (sys.resolve d) = true)
    (hdir : sys.isDir (sys.resolve d) = true)
    (hA : (is_directory_allowed sys srv (pathStr (sys.resolve d))).1 = true) :
    handle_request sys srv st (.dict [("id", idv), ("method", .str "tools/call"),
        ("params", .dict [("name", .str "execute_command"),
                          ("arguments", .dict afs)])]) =
      (.ret (Option.some (contentWrap (errResult
          ("执行错误: " ++ sys.excStr (.spawnTypeErr PyVal.none))))),
        st, [.authCheck, .spawnCall]) := by
  simp +decide only [handle_request, pyGet, lookupStr, isStrV, execCall,
    String.reduceEq, reduceIte, hcmd, Option.getD_some, Option.getD_none, beq_iff_eq]
  rw [execute_command_none_command sys srv _ _ d htgt hex hdir hA]

/-- Witness for the amended C7 at a concrete request (empty arguments
dict, default directory `/work` of the demo world). -/
theorem no_command_validation_witness :
    handle_request sysA srvAll false (.dict [("id", .int 3),
        ("method", .str "tools/call"),
        ("params", .dict [("name", .str "execute_command"),
                          ("arguments", .dict [])])]) =
      (.ret (Option.some (contentWrap (errResult
          ("执行错误: " ++ sysA.excStr (.spawnTypeErr PyVal.none))))),
        false, [.authCheck, .spawnCall]) :=
  no_command_validation sysA srvAll false (.int 3) [] "/work" rfl rfl
    (by decide) (by decide) (by decide)

/-- For a dict request the pre-dispatch steps of the loop body (the
logging f-string's `get`, then the id lookup) cannot raise, so the
line's outcome is determined by the dispatch outcome. -/
theorem runLine_dict (sys : Sys) (srv : Server) (st : Bool)
    (fs : List (String × PyVal)) :
    runLine sys srv st (Option.some (PyVal.dict fs)) =
      (match handle_request sys srv st (PyVal.dict fs) with
        | (.ret response, st2, eff) =>
            (st2, (send_response response ((lookupStr fs "id").getD PyVal.none)).toList, eff)
        | (.exc e, st2, eff) => (st2, internalErrLines sys e, eff)
        | (.hang, st2, eff) => (st2, [], eff)) := by
  have hstep : (if pyTruthy (PyVal.dict fs)
      then (pyGet (PyVal.dict fs) "method" (.str "unknown")).map (fun _ => ())
      else Except.ok ()) = Except.ok () := by
    cases fs <;> rfl
  simp only [runLine]
  rw [hstep]
  rcases handle_request sys srv st (PyVal.dict fs) with ⟨out, st2, eff⟩
  cases out <;> rfl

/-- C5 counterexample: the request `{"id": 7, "method": "tools/call",
"params": 5}` carries the id 7, dispatch raises (`params.get` on a
non-dict), and the `-32603` internal-error response is written with no
id field at all. -/
theorem internal_error_drops_id :
    (runLine sysA srvAll false (Option.some (.dict [("id", .int 7),
        ("method", .str "tools/call"), ("params", .int 5)]))).2.1 =
      [.dict [("jsonrpc", .str "2.0"),
              ("error", .dict [("code", .int (-32603)),
                               ("message", .str "Internal error: type error")])]] ∧
    hasKey (.dict [("jsonrpc", .str "2.0"),
              ("error", .dict [("code", .int (-32603)),
                               ("message", .str "Internal error: type error")])]) "id" = false ∧
    pyGet (.dict [("id", .int 7), ("method", .str "tools/call"),
        ("params", .int 5)]) "id" PyVal.none = .ok (.int 7) :=
  ⟨rfl, by decide, rfl⟩

/-- C5 amended: a response produced by normal dispatch of a parsed dict
request echoes the request's id (and omits it only when the request has
none), every response dict with a non-`None` id carries an `id` field
equal to it; but the `-32603` internal-error path passes `None` to the
encoder, so that response omits the id even when the request carried
one. -/
theorem response_id_echo (sys : Sys) (srv : Server) (st : Bool)
    (fs : List (String × PyVal)) :
    (∀ resp st2 eff,
      handle_request sys srv st (PyVal.dict fs) = (.ret resp, st2, eff) →
        (runLine sys srv st (Option.some (PyVal.dict fs))).2.1 =
          (send_response resp ((lookupStr fs "id").getD PyVal.none)).toList) ∧
    (∀ e st2 eff,
      handle_request sys srv st (PyVal.dict fs) = (.exc e, st2, eff) →
        (runLine sys srv st (Option.some (PyVal.dict fs))).2.1 =
          [.dict [("jsonrpc", .str "2.0"),
                  ("error", .dict [("code", .int (-32603)),
                    ("message", .str ("Internal error: " ++ sys.excStr e))])]]) ∧
    (∀ r rid, rid ≠ PyVal.none →
        send_response (Option.some r) rid =
          Option.some (.dict (if hasKey r "error"
            then [("jsonrpc", .str "2.0"), ("id", rid), ("error", getKey r "error")]
            else [("jsonrpc", .str "2.0"), ("id", rid), ("result", r)]))) := by
  refine ⟨?_, ?_, ?_⟩
  · intro resp st2 eff h
    rw [runLine_dict, h]
  · intro e st2 eff h
    rw [runLine_dict, h]
    rfl
  · intro r rid hrid
    cases rid with
    | none => exact absurd rfl hrid
    | bool b => cases hk : hasKey r "error" <;> simp [send_response, hk]
    | int n => cases hk : hasKey r "error" <;> simp [send_response, hk]
    | str s => cases hk : hasKey r "error" <;> simp [send_response, hk]
    | list xs => cases hk : hasKey r "error" <;> simp [send_response, hk]
    | dict gs => cases hk : hasKey r "error" <;> simp [send_response, hk]

/-- Demo world whose spawned process needs 100 seconds and then prints
`done`. -/
def sysSlow : Sys :=
  { sysA with spawn := fun _ _ => .runs (Option.some 100) "done" "" 0 }

/-- C6 counterexample: a request supplying `"timeout": null` is passed
through unchanged — `arguments.get("timeout", 30)` returns the stored
`None`, the wait runs with no deadline, and a 100-second command
succeeds; had the default 30 been substituted, the same command would
have been killed (third conjunct).  So the value reaching the
process-execution step is not always a positive integer. -/
theorem null_timeout_passes_through :
    (handle_request sysSlow srvAll false (.dict [("id", .int 1),
        ("method", .str "tools/call"),
        ("params", .dict [("name", .str "execute_command"),
          ("arguments", .dict [("command", .str "sleep 100"),
                               ("timeout", PyVal.none)])])])).1 =
      .ret (Option.some (contentWrap (.dict [("success", .bool true),
        ("stdout", .str "done"), ("stderr", .str ""),
        ("returncode", .int 0), ("working_dir", .str "/work"),
        ("command", .str "sleep 100")]))) ∧
    pyGet (.dict [("command", .str "sleep 100"), ("timeout", PyVal.none)])
        "timeout" (.int 30) = .ok PyVal.none ∧
    execute_command sysSlow srvAll (.str "sleep 100") PyVal.none (.int 30) =
      (.ret (errResult "命令执行超时（30秒）"), [.authCheck, .spawnCall, .kill]) :=
  ⟨rfl, rfl, rfl⟩

/-- C6 amended: the timeout handed to the process-execution step is
whatever `arguments.get("timeout", 30)` yields — `30` exactly when the
argument is absent, and the stored value unchanged (including `null`)
when it is present. -/
theorem timeout_defaulting (sys : Sys) (srv : Server) (st : Bool)
    (idv : PyVal) (afs : List (String × PyVal)) :
    (handle_request sys srv st (.dict [("id", idv), ("method", .str "tools/call"),
        ("params", .dict [("name", .str "execute_command"),
                          ("arguments", .dict afs)])]) =
      execCall sys srv st ((lookupStr afs "command").getD PyVal.none)
        ((lookupStr afs "working_dir").getD PyVal.none)
        ((lookupStr afs "timeout").getD (PyVal.int 30))) ∧
    (lookupStr afs "timeout" = Option.none →
      (lookupStr afs "timeout").getD (PyVal.int 30) = PyVal.int 30) ∧
    (∀ v, lookupStr afs "timeout" = Option.some v →
      (lookupStr afs "timeout").getD (PyVal.int 30) = v) := by
  refine ⟨?_, ?_, ?_⟩
  · simp +decide only [handle_request, pyGet, lookupStr, isStrV,
      String.reduceEq, reduceIte, Option.getD_some, Option.getD_none, beq_iff_eq]
  · intro h
    rw [h]
    rfl
  · intro v h
    rw [h]
    rfl

/-- The dispatcher returns no response (Python `None`) only for
`notifications/initialized`. -/
theorem handle_request_none_only_notif (sys : Sys) (srv : Server) (st : Bool)
    (request : PyVal) (st2 : Bool) (eff : List Effect)
    (h : handle_request sys srv st request = (.ret Option.none, st2, eff)) :
    ∃ m, pyGet request "method" PyVal.none = .ok m ∧
      isStrV m "notifications/initialized" = true := by
  unfold handle_request at h
  rcases hm : pyGet request "method" PyVal.none with e | m
  · simp [hm] at h
  · simp only [hm] at h
    rcases hp : pyGet request "params" (PyVal.dict []) with e | params
    · simp [hp] at h
    · simp only [hp] at h
      refine ⟨m, rfl, ?_⟩
      by_cases h1 : isStrV m "initialize" = true
      · simp [h1] at h
      · simp only [h1, if_false, Bool.false_eq_true] at h
        by_cases h2 : isStrV m "notifications/initialized" = true
        · exact h2
        · exfalso
          simp only [h2, if_false, Bool.false_eq_true] at h
          by_cases h3 : isStrV m "tools/list" = true
          · simp [h3] at h
          · simp only [h3, if_false, Bool.false_eq_true] at h
            by_cases h4 : isStrV m "tools/call" = true
            · simp only [h4, if_true] at h
              rcases hn : pyGet params "name" PyVal.none with e | tn
              · simp [hn] at h
              · simp only [hn] at h
                rcases ha : pyGet params "arguments" (PyVal.dict []) with e | args
                · simp [ha] at h
                · simp only [ha] at h
                  by_cases h5 : isStrV tn "execute_command" = true
                  · simp only [h5, if_true] at h
                    rcases hc : pyGet args "command" PyVal.none with e | cmd
                    · simp [hc] at h
                    · simp only [hc] at h
                      rcases hw : pyGet args "working_dir" PyVal.none with e | wd
                      · simp [hw] at h
                      · simp only [hw] at h
                        rcases ht : pyGet args "timeout" (PyVal.int 30) with e | tv
                        · simp [ht] at h
                        · simp only [ht] at h
                          unfold execCall at h
                          rcases he : execute_command sys srv cmd wd tv with ⟨out, eff2⟩
                          rw [he] at h
                          cases out <;> simp at h
                  · simp [h5] at h
            · simp [h4] at h

/-- A value equal (in the Python sense) to a string literal is that
string. -/
theorem isStrV_eq {m : PyVal} {s : String} (h : isStrV m s = true) :
    m = PyVal.str s := by
  cases m with
  | str t =>
    have ht : t = s := by simpa [isStrV] using h
    rw [ht]
  | none => simp [isStrV] at h
  | bool b => simp [isStrV] at h
  | int n => simp [isStrV] at h
  | list xs => simp [isStrV] at h
  | dict fs => simp [isStrV] at h

/-- A non-`None` response always encodes to exactly one envelope. -/
theorem send_response_some (r rid : PyVal) :
    ∃ env, send_response (Option.some r) rid = Option.some env := by
  simp only [send_response]
  cases rid <;> cases hk : hasKey r "error" <;> simp [hk]

/-- C8 counterexample: a `notifications/initialized` request that
carries the non-null id 1 produces zero response lines, not one. -/
theorem notification_with_id_writes_nothing :
    (runLine sysA srvAll false (Option.some (.dict [("id", .int 1),
        ("method", .str "notifications/initialized")]))).2.1 = [] ∧
    pyGet (.dict [("id", .int 1), ("method", .str "notifications/initialized")])
        "id" PyVal.none = .ok (.int 1) :=
  ⟨rfl, rfl⟩

/-- C8 amended: a `notifications/initialized` request always produces
zero response lines (even when it carries an id); every other parsed
dict request whose dispatch returns (does not wait forever) produces
exactly one response line. -/
theorem one_response_line_per_request (sys : Sys) (srv : Server) (st : Bool)
    (fs : List (String × PyVal)) :
    (isStrV ((lookupStr fs "method").getD PyVal.none)
        "notifications/initialized" = true →
      (runLine sys srv st (Option.some (PyVal.dict fs))).2.1 = []) ∧
    ((lookupStr fs "id").getD PyVal.none ≠ PyVal.none →
      isStrV ((lookupStr fs "method").getD PyVal.none)
          "notifications/initialized" = false →
      (handle_request sys srv st (PyVal.dict fs)).1 ≠ POut.hang →
      ((runLine sys srv st (Option.some (PyVal.dict fs))).2.1).length = 1) := by
  constructor
  · intro hm
    have hm2 := isStrV_eq hm
    have hh : handle_request sys srv st (PyVal.dict fs) = (.ret Option.none, st, []) := by
      simp +decide only [handle_request, pyGet, hm2, isStrV,
        String.reduceEq, reduceIte, beq_iff_eq]
    rw [runLine_dict, hh]
    rfl
  · intro _ hm hhang
    rcases hh : handle_request sys srv st (PyVal.dict fs) with ⟨out, st2, eff⟩
    cases out with
    | hang =>
      have : (handle_request sys srv st (PyVal.dict fs)).1 = POut.hang := by
        rw [hh]
      exact absurd this hhang
    | exc e =>
      rw [runLine_dict, hh]
      rfl
    | ret resp =>
      cases resp with
      | none =>
        obtain ⟨m, hmg, hnotif⟩ :=
          handle_request_none_only_notif sys srv st _ _ _ hh
        have hmg2 : Except.ok (ε := PyExc)
            ((lookupStr fs "method").getD PyVal.none) = Except.ok m := hmg
        have hme : m = (lookupStr fs "method").getD PyVal.none := by
          injection hmg2 with h3
          exact h3.symm
        rw [hme] at hnotif
        rw [hnotif] at hm
        exact Bool.noConfusion hm
      | some r =>
        rw [runLine_dict, hh]
        obtain ⟨env, henv⟩ :=
          send_response_some r ((lookupStr fs "id").getD PyVal.none)
        simp [henv]

/-- `isStrV` on a string value is plain string equality. -/
theorem isStrV_str (s t : String) : isStrV (.str s) t = (s == t) := rfl

/-- Claim C9: a `tools/call` naming an unrecognized tool yields a normal
result payload flagged `isError` (no `error` key, so the encoder wraps
it under `result`), while a method outside the closed set
`initialize` / `notifications/initialized` / `tools/list` / `tools/call`
yields the protocol-level `-32601` error (an `error` key, so the
encoder wraps it under `error`). -/
theorem unknown_tool_vs_unknown_method (sys : Sys) (srv : Server) (st : Bool)
    (idv tnv m : PyVal) (pfs : List (String × PyVal)) :
    (isStrV tnv "execute_command" = false →
      handle_request sys srv st (.dict [("id", idv), ("method", .str "tools/call"),
          ("params", .dict (("name", tnv) :: pfs))]) =
        (.ret (Option.some (unknownToolResult tnv)), st, []) ∧
      hasKey (unknownToolResult tnv) "error" = false ∧
      hasKey (unknownToolResult tnv) "isError" = true ∧
      send_response (Option.some (unknownToolResult tnv)) PyVal.none =
        Option.some (.dict [("jsonrpc", .str "2.0"),
                            ("result", unknownToolResult tnv)])) ∧
    (isStrV m "initialize" = false →
      isStrV m "notifications/initialized" = false →
      isStrV m "tools/list" = false →
      isStrV m "tools/call" = false →
      handle_request sys srv st (.dict [("id", idv), ("method", m)]) =
        (.ret (Option.some (unknownMethodResult m)), st, []) ∧
      unknownMethodResult m = .dict [("error", .dict [("code", .int (-32601)),
        ("message", .str ("未知方法: " ++ pyStr m))])] ∧
      hasKey (unknownMethodResult m) "error" = true ∧
      send_response (Option.some (unknownMethodResult m)) PyVal.none =
        Option.some (.dict [("jsonrpc", .str "2.0"),
          ("error", .dict [("code", .int (-32601)),
            ("message", .str ("未知方法: " ++ pyStr m))])])) := by
  constructor
  · intro h5
    refine ⟨?_, rfl, rfl, rfl⟩
    simp +decide only [handle_request, pyGet, lookupStr, isStrV_str,
      String.reduceEq, reduceIte, Option.getD_some, Option.getD_none,
      beq_iff_eq, Bool.false_eq_true, h5]
  · intro h1 h2 h3 h4
    refine ⟨?_, rfl, rfl, rfl⟩
    simp +decide only [handle_request, pyGet, lookupStr,
      String.reduceEq, reduceIte, Option.getD_some, Option.getD_none,
      beq_iff_eq, h1, h2, h3, h4]
